import Mathlib

/-!
Verification development for the Time Attack commute tracker.

The data model follows the SQLite schema in `init_db.py`; the storage
operations follow `db_helpers.py` (class `TimeAttackDB`); the run-lifecycle
controller follows the session-state handlers in `app.py`.

Timestamps in the database model are rationals: the clock-face numbers the
sqlite layer stores.  The serialization carries no timezone marker, because
every stored timestamp comes from naive `datetime.now()`; the Python parse
path of `app.py` (`datetime.fromisoformat(... .replace("Z", "+00:00"))`
subtracted from `datetime.now(timezone.utc)`) is modelled by `PyDateTime`,
`StoredTimestamp`, `parseStored` and `pySub`, and `record_checkpoint` goes
through it, so an aware-minus-naive `TypeError` is `none` there, as in the
source.

Each wall-clock read performed during one handler invocation is modelled by
the single `now` parameter of that operation.
-/

namespace TimeAttack

/-- Row of the `routes` table (`init_db.py`). -/
structure Route where
  id : Nat
  name : String
  description : String
  created_at : ℚ
deriving Repr, DecidableEq

/-- Row of the `checkpoints` table (`init_db.py`). -/
structure Checkpoint where
  id : Nat
  route_id : Nat
  name : String
  sequence_order : Int
deriving Repr, DecidableEq

/-- Row of the `runs` table (`init_db.py`).  `end_time` and
`total_time_seconds` are nullable until completion. -/
structure Run where
  id : Nat
  route_id : Nat
  start_time : ℚ
  end_time : Option ℚ
  total_time_seconds : Option ℚ
  notes : String
  is_completed : Bool
deriving Repr, DecidableEq

/-- Row of the `checkpoint_times` table (`init_db.py`). -/
structure CheckpointTime where
  id : Nat
  run_id : Nat
  checkpoint_id : Nat
  time_reached : ℚ
  segment_time_seconds : ℚ
deriving Repr, DecidableEq

/-- The database state: the four tables in insertion order plus the
AUTOINCREMENT counters. -/
structure DB where
  routes : List Route
  checkpoints : List Checkpoint
  runs : List Run
  checkpoint_times : List CheckpointTime
  next_route_id : Nat
  next_checkpoint_id : Nat
  next_run_id : Nat
  next_ct_id : Nat
deriving Repr, DecidableEq

/-- Model of `TimeAttackDB.create_route`: INSERT INTO routes, return `lastrowid`. -/
def create_route (db : DB) (name description : String) (now : ℚ) : DB × Nat :=
  let rid := db.next_route_id
  ({ db with
      routes := db.routes ++ [⟨rid, name, description, now⟩],
      next_route_id := rid + 1 }, rid)

/-- Model of `TimeAttackDB.delete_route`: executes only `DELETE FROM routes WHERE id = ?`.
The connection never issues `PRAGMA foreign_keys = ON`, so the
`ON DELETE CASCADE` clauses declared in `init_db.py` are not enforced by
sqlite on this connection: only the `routes` row itself disappears. -/
def delete_route (db : DB) (route_id : Nat) : DB :=
  { db with routes := db.routes.filter (fun r => ¬ r.id = route_id) }

/-- Model of `TimeAttackDB.add_checkpoint`: INSERT INTO checkpoints.  (The
`UNIQUE(route_id, sequence_order)` constraint is not modelled; no theorem
below depends on inserting a duplicate position.) -/
def add_checkpoint (db : DB) (route_id : Nat) (name : String)
    (sequence_order : Int) : DB :=
  let cid := db.next_checkpoint_id
  { db with
      checkpoints := db.checkpoints ++ [⟨cid, route_id, name, sequence_order⟩],
      next_checkpoint_id := cid + 1 }

/-- Order on checkpoints used by the `ORDER BY sequence_order` clauses. -/
def cpLE (a b : Checkpoint) : Prop :=
  a.sequence_order ≤ b.sequence_order

instance : DecidableRel cpLE := fun a b =>
  inferInstanceAs (Decidable (a.sequence_order ≤ b.sequence_order))

/-- Model of `TimeAttackDB.get_checkpoints`: checkpoints of a route ordered by
`sequence_order`. -/
def get_checkpoints (db : DB) (route_id : Nat) : List Checkpoint :=
  List.insertionSort cpLE (db.checkpoints.filter (fun c => c.route_id = route_id))

/-- Model of `TimeAttackDB.delete_checkpoint`: DELETE FROM checkpoints WHERE id = ?. -/
def delete_checkpoint (db : DB) (checkpoint_id : Nat) : DB :=
  { db with checkpoints := db.checkpoints.filter (fun c => ¬ c.id = checkpoint_id) }

/-- Model of `TimeAttackDB.start_run`: INSERT INTO runs with `start_time = now`,
the remaining columns at their defaults (`is_completed = 0`). -/
def start_run (db : DB) (route_id : Nat) (notes : String) (now : ℚ) : DB × Nat :=
  let run_id := db.next_run_id
  ({ db with
      runs := db.runs ++ [⟨run_id, route_id, now, none, none, notes, false⟩],
      next_run_id := run_id + 1 }, run_id)

/-- Model of `TimeAttackDB.complete_run`: UPDATE runs SET end_time, total_time_seconds,
is_completed = 1 WHERE id = ?. -/
def complete_run (db : DB) (run_id : Nat) (total_time_seconds : ℚ) (now : ℚ) : DB :=
  { db with
      runs := db.runs.map (fun r =>
        if r.id = run_id then
          { r with
              end_time := some now,
              total_time_seconds := some total_time_seconds,
              is_completed := true }
        else r) }

/-- Model of `TimeAttackDB.record_checkpoint_time`: INSERT INTO checkpoint_times with
`time_reached = now`. -/
def record_checkpoint_time (db : DB) (run_id checkpoint_id : Nat)
    (segment_time_seconds : ℚ) (now : ℚ) : DB :=
  let ctid := db.next_ct_id
  { db with
      checkpoint_times :=
        db.checkpoint_times ++ [⟨ctid, run_id, checkpoint_id, now, segment_time_seconds⟩],
      next_ct_id := ctid + 1 }

/-- Model of `TimeAttackDB.delete_run`: executes only `DELETE FROM runs WHERE id = ?`;
as with `delete_route`, the declared cascade to `checkpoint_times` is not
enforced because foreign keys are never enabled on the connection. -/
def delete_run (db : DB) (run_id : Nat) : DB :=
  { db with runs := db.runs.filter (fun r => ¬ r.id = run_id) }

/-- SQL `MIN` over a nullable column: NULL entries are ignored; the result is
NULL when no non-null entry exists. -/
def sqlMin : List (Option ℚ) → Option ℚ
  | [] => none
  | none :: rest => sqlMin rest
  | some x :: rest =>
    match sqlMin rest with
    | none => some x
    | some y => some (min x y)

/-- The completed runs of a route, in table order: the rows satisfying
`route_id = ? AND is_completed = 1`. -/
def completedRuns (db : DB) (route_id : Nat) : List Run :=
  db.runs.filter (fun r => r.route_id = route_id ∧ r.is_completed = true)

/-- Result shape of `TimeAttackDB.get_personal_best`. -/
structure PersonalBest where
  run_id : Nat
  time_seconds : ℚ
  date : ℚ
deriving Repr, DecidableEq

/-- Model of `TimeAttackDB.get_personal_best`.  The SQL query selects
`id, MIN(total_time_seconds), start_time ... GROUP BY route_id`: sqlite's
bare-column rule makes `id` and `start_time` come from a row attaining the
minimum (modelled as the first such row in table order).  The Python guard
`if row and row[1]:` then treats a NULL or `0.0` minimum as falsy and
returns `None` in that case. -/
def get_personal_best (db : DB) (route_id : Nat) : Option PersonalBest :=
  let rs := completedRuns db route_id
  if rs.isEmpty then none
  else
    match sqlMin (rs.map (fun r => r.total_time_seconds)) with
    | none => none
    | some m =>
      if m = 0 then none
      else
        match rs.find? (fun r => r.total_time_seconds = some m) with
        | none => none
        | some r => some ⟨r.id, m, r.start_time⟩

/-- One dictionary produced by `TimeAttackDB.get_run_checkpoint_times`. -/
structure CTRow where
  checkpoint_id : Nat
  name : String
  sequence_order : Int
  segment_time : ℚ
  cumulative_time : ℚ
  time_reached : ℚ
deriving Repr, DecidableEq

/-- The `JOIN checkpoints c ON ct.checkpoint_id = c.id` step: resolve a
checkpoint-time row to its checkpoint, dropping it when none exists. -/
def joinCheckpoint (db : DB) (ct : CheckpointTime) : Option (Checkpoint × CheckpointTime) :=
  (db.checkpoints.find? (fun c => c.id = ct.checkpoint_id)).map (fun c => (c, ct))

/-- The `cumulative_time` accumulation loop of
`TimeAttackDB.get_run_checkpoint_times` (`cumulative_time += row[3]`). -/
def withCumulative : ℚ → List (Checkpoint × CheckpointTime) → List CTRow
  | _, [] => []
  | acc, (c, ct) :: rest =>
    let cum := acc + ct.segment_time_seconds
    ⟨c.id, c.name, c.sequence_order, ct.segment_time_seconds, cum, ct.time_reached⟩ ::
      withCumulative cum rest

/-- Order on joined rows used by the query's `ORDER BY c.sequence_order`. -/
def pairLE (a b : Checkpoint × CheckpointTime) : Prop :=
  a.1.sequence_order ≤ b.1.sequence_order

instance : DecidableRel pairLE := fun a b =>
  inferInstanceAs (Decidable (a.1.sequence_order ≤ b.1.sequence_order))

/-- Model of `TimeAttackDB.get_run_checkpoint_times`: the run's checkpoint-time rows
joined to their checkpoints, ordered by sequence position, with running
cumulative time. -/
def get_run_checkpoint_times (db : DB) (run_id : Nat) : List CTRow :=
  let joined := (db.checkpoint_times.filter (fun ct => ct.run_id = run_id)).filterMap
    (joinCheckpoint db)
  withCumulative 0 (List.insertionSort pairLE joined)

/-- One row of the comparison built by `TimeAttackDB.get_ghost_comparison`. -/
structure CompRow where
  checkpoint_name : String
  sequence_order : Int
  current_segment : ℚ
  ghost_segment : ℚ
  segment_delta : ℚ
  current_cumulative : ℚ
  ghost_cumulative : ℚ
  cumulative_delta : ℚ
deriving Repr, DecidableEq

/-- Model of `TimeAttackDB.get_ghost_comparison`: pair the two ordered checkpoint-time
sequences positionally (Python `zip`, which truncates to the shorter) and take
the segment and cumulative differences. -/
def get_ghost_comparison (db : DB) (run_id ghost_run_id : Nat) : List CompRow :=
  (List.zip (get_run_checkpoint_times db run_id)
      (get_run_checkpoint_times db ghost_run_id)).map
    (fun p =>
      ⟨p.1.name, p.1.sequence_order,
        p.1.segment_time, p.2.segment_time, p.1.segment_time - p.2.segment_time,
        p.1.cumulative_time, p.2.cumulative_time,
        p.1.cumulative_time - p.2.cumulative_time⟩)

/-- Model of `TimeAttackDB.get_pb_ghost_comparison`: resolve the run's route, find the
personal best, and return `none` (Python `return None`, an empty result, not
an exception) when there is no personal best or the run is the personal best
itself; otherwise delegate to `get_ghost_comparison`. -/
def get_pb_ghost_comparison (db : DB) (run_id : Nat) : Option (List CompRow) :=
  match db.runs.find? (fun r => r.id = run_id) with
  | none => none
  | some r =>
    match get_personal_best db r.route_id with
    | none => none
    | some pb =>
      if pb.run_id = run_id then none
      else some (get_ghost_comparison db run_id pb.run_id)

/-- Model of `TimeAttackDB.get_live_ghost_data`: the personal-best run's checkpoint
times, or `none` when there is no personal best. -/
def get_live_ghost_data (db : DB) (route_id : Nat) : Option (List CTRow) :=
  match get_personal_best db route_id with
  | none => none
  | some pb => some (get_run_checkpoint_times db pb.run_id)

/-- Result shape of `TimeAttackDB.get_run_details` (`runs` joined to
`routes`). -/
structure RunDetails where
  id : Nat
  route_id : Nat
  start_time : ℚ
  end_time : Option ℚ
  total_time_seconds : Option ℚ
  notes : String
  is_completed : Bool
  route_name : String
deriving Repr, DecidableEq

/-- Model of `TimeAttackDB.get_run_details`: the run joined to its route; `none` when
either row is missing. -/
def get_run_details (db : DB) (run_id : Nat) : Option RunDetails :=
  match db.runs.find? (fun r => r.id = run_id) with
  | none => none
  | some r =>
    match db.routes.find? (fun rt => rt.id = r.route_id) with
    | none => none
    | some rt =>
      some ⟨r.id, r.route_id, r.start_time, r.end_time, r.total_time_seconds,
        r.notes, r.is_completed, rt.name⟩

/-- Modelled from the spec: `get_latest_active_run` is called by the Active
Run page of `app.py` but its definition is absent from the sources; per the
spec it returns the most recent run with `is_completed = false`, or none.
Runs are stored in creation order (AUTOINCREMENT ids), so the most recent
incomplete run is the last incomplete row in table order. -/
def get_latest_active_run (db : DB) : Option Run :=
  (db.runs.filter (fun r => r.is_completed = false)).getLast?

/-- One row of `TimeAttackDB.get_checkpoint_analysis`.  The SQL groups by
`c.id` (kept here to identify rows) and selects name, sequence position and
the aggregates over the group's segment times. -/
structure AnalysisRow where
  checkpoint_id : Nat
  checkpoint_name : String
  sequence_order : Int
  avg_time : ℚ
  best_time : ℚ
  worst_time : ℚ
  times_completed : Nat
deriving Repr, DecidableEq

/-- Whether a checkpoint-time row joins to a completed run
(`LEFT JOIN runs r ... WHERE r.is_completed = 1`; the WHERE clause rejects
the NULL-extended rows, so the join is effectively inner). -/
def isCompletedRunCT (db : DB) (ct : CheckpointTime) : Bool :=
  db.runs.any (fun r => r.id = ct.run_id ∧ r.is_completed = true)

/-- The group of `get_checkpoint_analysis` keyed by one checkpoint: its
segment times across completed runs, aggregated into one output row, or no
row when the group is empty. -/
def analysisRowFor (db : DB) (c : Checkpoint) : Option AnalysisRow :=
  match (db.checkpoint_times.filter
      (fun ct => ct.checkpoint_id = c.id ∧ isCompletedRunCT db ct = true)).map
    (fun ct => ct.segment_time_seconds) with
  | [] => none
  | x :: xs =>
    some ⟨c.id, c.name, c.sequence_order,
      (x :: xs).sum / ((x :: xs).length : ℚ),
      xs.foldl min x, xs.foldl max x, (x :: xs).length⟩

/-- Model of `TimeAttackDB.get_checkpoint_analysis`: per checkpoint of the route, the
aggregates of its segment times across completed runs.  Because the
`WHERE r.is_completed = 1` clause discards NULL-extended rows of the LEFT
JOINs, a checkpoint with no checkpoint-time row in a completed run produces
no group and hence no output row. -/
def get_checkpoint_analysis (db : DB) (route_id : Nat) : List AnalysisRow :=
  (List.insertionSort cpLE (db.checkpoints.filter
    (fun c => c.route_id = route_id))).filterMap (analysisRowFor db)

/-! ### Timezone handling of the parse path

`start_run` and `record_checkpoint_time` store `datetime.now()` — a naive
local-time value, serialized by sqlite without any timezone marker.  `app.py`
parses stored values with `datetime.fromisoformat(s.replace("Z", "+00:00"))`
and subtracts them from `datetime.now(timezone.utc)`, an aware value. -/

/-- A Python `datetime`: a clock-face reading plus an optional UTC offset
(in seconds); `none` is a naive value. -/
structure PyDateTime where
  wall : ℚ
  tz : Option ℚ
deriving Repr, DecidableEq

/-- A timestamp as serialized into the store: the clock-face value and
whether the text carries a timezone marker. -/
structure StoredTimestamp where
  wall : ℚ
  hasTz : Bool
deriving Repr, DecidableEq

/-- Storing `datetime.now()` (as `start_run` / `record_checkpoint_time` do):
a naive local reading, `localOffset` seconds ahead of UTC, serialized with no
timezone marker. -/
def storeNaiveNow (utcNow localOffset : ℚ) : StoredTimestamp :=
  ⟨utcNow + localOffset, false⟩

/-- Parsing `datetime.fromisoformat(stored.replace("Z", "+00:00"))`: a marked
timestamp parses as aware UTC; an unmarked one parses as naive (the
`replace` finds no `"Z"` to rewrite). -/
def parseStored (st : StoredTimestamp) : PyDateTime :=
  if st.hasTz then ⟨st.wall, some 0⟩ else ⟨st.wall, none⟩

/-- Python datetime subtraction in seconds: defined between two aware or two
naive values; mixing them raises `TypeError`, modelled as `none`. -/
def pySub (a b : PyDateTime) : Option ℚ :=
  match a.tz, b.tz with
  | some oa, some ob => some ((a.wall - oa) - (b.wall - ob))
  | none, none => some (a.wall - b.wall)
  | _, _ => none

/-- Model of `datetime.now(timezone.utc)`: an aware value at offset 0. -/
def utcnowDt (utcNow : ℚ) : PyDateTime := ⟨utcNow, some 0⟩

/-- The segment / elapsed computation of `app.py`:
`(datetime.now(timezone.utc) - parsed_stored).total_seconds()`. -/
def elapsedFromStored (utcNow : ℚ) (st : StoredTimestamp) : Option ℚ :=
  pySub (utcnowDt utcNow) (parseStored st)

/-- The Streamlit session state used by `app.py`. -/
structure SessionState where
  active_run : Option Nat
  current_checkpoint_index : Nat
  checkpoints_data : List Checkpoint
  ghost_data : Option (List CTRow)
deriving Repr, DecidableEq

/-- The session state after `cancel_run` in `app.py`: no active run, cursor
0, empty checkpoint snapshot, no ghost data. -/
def clearedSession : SessionState := ⟨none, 0, [], none⟩

/-- Model of `app.py cancel_run`: clears the in-memory session fields only; the
function performs no storage call at all (it is total and cannot fail). -/
def cancel_run (db : DB) (s : SessionState) : DB × SessionState :=
  (db, clearedSession)

/-- Model of `app.py start_new_run`: start the run in storage, then initialize the
session (cursor 0, checkpoint snapshot, live ghost data). -/
def start_new_run (db : DB) (route_id : Nat) (notes : String) (now : ℚ) :
    DB × SessionState × Nat :=
  let res := start_run db route_id notes now
  (res.1, ⟨some res.2, 0, get_checkpoints res.1 route_id,
    get_live_ghost_data res.1 route_id⟩, res.2)

/-- The validation failure surfaced by the Start Run handler
(`st.error("❌ This route has no checkpoints. ...")`). -/
inductive StartRunError
  | noCheckpoints
deriving Repr, DecidableEq

/-- The Start Run button handler of `app.py` (lines 135-141): fetch the
route's checkpoints; when there are none, report the validation error and
change nothing; otherwise delegate to `start_new_run`. -/
def start_run_click (db : DB) (s : SessionState) (route_id : Nat)
    (notes : String) (now : ℚ) : DB × SessionState × Option StartRunError :=
  if get_checkpoints db route_id = [] then
    (db, s, some StartRunError.noCheckpoints)
  else
    let res := start_new_run db route_id notes now
    (res.1, res.2.1, none)

/-- Model of `app.py record_checkpoint`: one press of "Checkpoint Reached" at
UTC wall time `now`.  Every timestamp in the store was written by naive
`datetime.now()` (`start_run`, `record_checkpoint_time`) and so carries no
timezone marker; the handler re-parses it with
`datetime.fromisoformat(... .replace("Z", "+00:00"))` (`parseStored` of an
unmarked `StoredTimestamp`) and subtracts it from the aware
`datetime.now(timezone.utc)` (`pySub (utcnowDt now) ...`, app.py lines 73 and
82).  `none` models a raised Python exception: a missing run or route row,
`prev_cp_times[-1]` on an empty list, the `TypeError` of an aware-minus-naive
subtraction, or `all_cps[cp_idx]` out of range.  On the last checkpoint the
run would be completed in storage and the session cleared (`cancel_run`);
the returned flag and total mirror the source's `return True, total_time`. -/
def record_checkpoint (db : DB) (s : SessionState) (now : ℚ) :
    Option (DB × SessionState × Bool × Option ℚ) :=
  match s.active_run with
  | none => none
  | some run_id =>
    match get_run_details db run_id with
    | none => none
    | some rd =>
      let prev := get_run_checkpoint_times db run_id
      let lastStored? : Option StoredTimestamp :=
        if s.current_checkpoint_index = 0 then some ⟨rd.start_time, false⟩
        else prev.getLast?.map (fun row => ⟨row.time_reached, false⟩)
      match lastStored? with
      | none => none
      | some lastStored =>
        match pySub (utcnowDt now) (parseStored lastStored) with
        | none => none
        | some segment =>
          match s.checkpoints_data[s.current_checkpoint_index]? with
          | none => none
          | some checkpoint =>
            let db1 := record_checkpoint_time db run_id checkpoint.id segment now
            let idx1 := s.current_checkpoint_index + 1
            if s.checkpoints_data.length ≤ idx1 then
              match pySub (utcnowDt now) (parseStored ⟨rd.start_time, false⟩) with
              | none => none
              | some total =>
                some (complete_run db1 run_id total now, clearedSession, true,
                  some total)
            else
              some (db1, { s with current_checkpoint_index := idx1 }, false, none)

/-- Repeatedly pressing "Checkpoint Reached" at the given wall times. -/
def runLoop (db : DB) (s : SessionState) : List ℚ → Option (DB × SessionState)
  | [] => some (db, s)
  | t :: ts =>
    match record_checkpoint db s t with
    | none => none
    | some res => runLoop res.1 res.2.1 ts

/-- The reattach block at the top of the Active Run page (`app.py` lines
110-118): when no in-memory run is tracked, query the latest incomplete run
and rebuild the session from storage. -/
def reattach (db : DB) (s : SessionState) : SessionState :=
  match s.active_run with
  | some _ => s
  | none =>
    match get_latest_active_run db with
    | none => s
    | some latest =>
      ⟨some latest.id,
        (get_run_checkpoint_times db latest.id).length,
        get_checkpoints db latest.route_id,
        get_live_ghost_data db latest.route_id⟩

/-! ### Concrete example databases used by witnesses and counterexamples -/

/-- One route with one checkpoint, one run on the route and one
checkpoint-time row of that run (used for C9). -/
def c9db : DB :=
  ⟨[⟨1, "r", "", 0⟩], [⟨1, 1, "c", 1⟩],
    [⟨1, 1, 0, none, none, "", false⟩], [⟨1, 1, 1, 2, 2⟩], 2, 2, 2, 2⟩

/-- A route whose single completed run has total duration `0.0` (used for
C2's counterexample: the Python guard treats `0.0` as falsy). -/
def c2db : DB :=
  ⟨[⟨1, "r", "", 0⟩], [], [⟨1, 1, 0, some 0, some 0, "", true⟩], [], 2, 1, 2, 1⟩

/-- A route with two completed runs, totals 10 and 7 (used for C2's
witness: the personal best is run 2). -/
def c2db2 : DB :=
  ⟨[⟨1, "r", "", 0⟩], [],
    [⟨1, 1, 0, some 10, some 10, "", true⟩, ⟨2, 1, 1, some 7, some 7, "", true⟩],
    [], 2, 1, 3, 1⟩

/-- One incomplete run with one recorded checkpoint time (used for C4's
witness). -/
def c4db : DB :=
  ⟨[⟨1, "r", "", 0⟩], [⟨1, 1, "c", 1⟩],
    [⟨1, 1, 0, none, none, "", false⟩], [⟨1, 1, 1, 5, 5⟩], 2, 2, 2, 2⟩

/-- One run on a route with no completed run (used for C6's witness: no
personal best exists). -/
def c6db : DB :=
  ⟨[⟨1, "r", "", 0⟩], [], [⟨1, 1, 0, none, none, "", false⟩], [], 2, 1, 2, 1⟩

/-- Two completed runs over a two-checkpoint route, with their recorded
checkpoint times (used for the C3 and C10 witnesses). -/
def c3db : DB :=
  ⟨[⟨1, "r", "", 0⟩],
    [⟨1, 1, "alpha", 1⟩, ⟨2, 1, "beta", 2⟩],
    [⟨1, 1, 0, some 30, some 30, "", true⟩, ⟨2, 1, 0, some 27, some 27, "", true⟩],
    [⟨1, 1, 1, 10, 10⟩, ⟨2, 1, 2, 30, 20⟩, ⟨3, 2, 1, 12, 12⟩, ⟨4, 2, 2, 27, 15⟩],
    2, 3, 3, 5⟩

/-- A fresh database holding one route with two checkpoints and one
just-started run (used for C1's witness: a full run-through). -/
def c1db : DB :=
  ⟨[⟨1, "r", "", 0⟩], [⟨1, 1, "alpha", 1⟩, ⟨2, 1, "beta", 2⟩],
    [⟨1, 1, 0, none, none, "", false⟩], [], 2, 3, 2, 1⟩

/-! ### General helper lemmas -/

theorem mem_of_getLast?_eq (l : List α) (a : α) (h : l.getLast? = some a) : a ∈ l := by
  induction l with
  | nil => simp at h
  | cons x xs ih =>
    cases xs with
    | nil => simp_all
    | cons y ys =>
      rw [List.getLast?_cons_cons] at h
      exact List.mem_cons_of_mem x (ih h)

theorem length_filterMap_of_isSome (f : α → Option β) :
    ∀ l : List α, (∀ x ∈ l, (f x).isSome) → (l.filterMap f).length = l.length := by
  intro l
  induction l with
  | nil => simp
  | cons x xs ih =>
    intro h
    have hx : (f x).isSome := h x (List.mem_cons_self x xs)
    obtain ⟨b, hb⟩ := Option.isSome_iff_exists.1 hx
    rw [List.filterMap_cons, hb]
    simp only [List.length_cons]
    rw [ih (fun y hy => h y (List.mem_cons_of_mem x hy))]

theorem sqlMin_none_not_mem :
    ∀ {l : List (Option ℚ)}, sqlMin l = none → ∀ x : ℚ, some x ∉ l := by
  intro l
  induction l with
  | nil => intro _ x hx; simp at hx
  | cons o rest ih =>
    intro h x hx
    match o with
    | none =>
      rw [sqlMin] at h
      rcases List.mem_cons.1 hx with hx1 | hx2
      · exact Option.noConfusion hx1
      · exact ih h x hx2
    | some v =>
      rw [sqlMin] at h
      cases hrest : sqlMin rest <;> rw [hrest] at h <;> exact Option.noConfusion h

theorem sqlMin_mem :
    ∀ {l : List (Option ℚ)} {m : ℚ}, sqlMin l = some m → some m ∈ l := by
  intro l
  induction l with
  | nil => intro m h; exact Option.noConfusion h
  | cons o rest ih =>
    intro m h
    match o with
    | none =>
      rw [sqlMin] at h
      exact List.mem_cons_of_mem _ (ih h)
    | some v =>
      rw [sqlMin] at h
      cases hrest : sqlMin rest with
      | none =>
        rw [hrest] at h
        cases h
        exact List.mem_cons_self _ _
      | some y =>
        rw [hrest] at h
        cases h
        rcases le_total v y with hvy | hyv
        · rw [min_eq_left hvy]
          exact List.mem_cons_self _ _
        · rw [min_eq_right hyv]
          exact List.mem_cons_of_mem _ (ih hrest)

theorem sqlMin_le :
    ∀ {l : List (Option ℚ)} {m : ℚ}, sqlMin l = some m →
      ∀ x : ℚ, some x ∈ l → m ≤ x := by
  intro l
  induction l with
  | nil => intro m _ x hx; simp at hx
  | cons o rest ih =>
    intro m h x hx
    match o with
    | none =>
      rw [sqlMin] at h
      rcases List.mem_cons.1 hx with hx1 | hx2
      · exact Option.noConfusion hx1
      · exact ih h x hx2
    | some v =>
      rw [sqlMin] at h
      cases hrest : sqlMin rest with
      | none =>
        rw [hrest] at h
        cases h
        rcases List.mem_cons.1 hx with hx1 | hx2
        · cases hx1
          exact le_refl _
        · exact absurd hx2 (sqlMin_none_not_mem hrest x)
      | some y =>
        rw [hrest] at h
        cases h
        rcases List.mem_cons.1 hx with hx1 | hx2
        · cases hx1
          exact min_le_left _ _
        · exact le_trans (min_le_right _ _) (ih hrest x hx2)

/-! ### C2: what `get_personal_best` returns -/

/-- C2 counterexample: the claim "returns none if and only if the route has
no completed runs" fails.  In `c2db` route 1 has a completed run, yet
`get_personal_best` returns none, because the minimum total duration is
`0.0` and the Python guard `if row and row[1]:` treats it as falsy. -/
theorem C2_counterexample_zero_total :
    get_personal_best c2db 1 = none ∧ completedRuns c2db 1 ≠ [] := by
  constructor
  · rfl
  · decide

/-- C2 as amended: `get_personal_best` returns none iff the route has no
completed runs, or no completed run has a (non-NULL) total, or the minimum
total duration equals 0 (the falsy-guard case); when it returns a result,
that result is a completed run of the route attaining the minimum total
duration, reported with its run id, total duration and date. -/
theorem C2_personal_best_amended (db : DB) (route_id : Nat) :
    (get_personal_best db route_id = none ↔
      completedRuns db route_id = [] ∨
        sqlMin ((completedRuns db route_id).map (fun r => r.total_time_seconds)) = none ∨
        sqlMin ((completedRuns db route_id).map (fun r => r.total_time_seconds)) = some 0) ∧
    ∀ pb, get_personal_best db route_id = some pb →
      pb.time_seconds ≠ 0 ∧
      ∃ r ∈ completedRuns db route_id,
        r.id = pb.run_id ∧ r.total_time_seconds = some pb.time_seconds ∧
        r.start_time = pb.date ∧
        ∀ q ∈ completedRuns db route_id, ∀ t : ℚ,
          q.total_time_seconds = some t → pb.time_seconds ≤ t := by
  unfold get_personal_best
  by_cases hemp : (completedRuns db route_id).isEmpty
  · rw [if_pos hemp]
    refine ⟨⟨fun _ => Or.inl (List.isEmpty_iff.1 hemp), fun _ => rfl⟩, ?_⟩
    intro pb hpb
    exact Option.noConfusion hpb
  · rw [if_neg hemp]
    have hemp2 : completedRuns db route_id ≠ [] := by
      intro hh
      exact hemp (by rw [hh]; rfl)
    cases hmin : sqlMin ((completedRuns db route_id).map (fun r => r.total_time_seconds)) with
    | none =>
      refine ⟨⟨fun _ => Or.inr (Or.inl rfl), fun _ => rfl⟩, ?_⟩
      intro pb hpb
      exact Option.noConfusion hpb
    | some m =>
      dsimp only
      by_cases hm0 : m = 0
      · subst hm0
        rw [if_pos rfl]
        refine ⟨⟨fun _ => Or.inr (Or.inr rfl), fun _ => rfl⟩, ?_⟩
        intro pb hpb
        exact Option.noConfusion hpb
      · rw [if_neg hm0]
        have hmem : some m ∈ (completedRuns db route_id).map (fun r => r.total_time_seconds) :=
          sqlMin_mem hmin
        obtain ⟨r0, hr0mem, hr0tot⟩ := List.mem_map.1 hmem
        have hfindSome : ((completedRuns db route_id).find?
            (fun r => r.total_time_seconds = some m)).isSome := by
          rw [List.find?_isSome]
          exact ⟨r0, hr0mem, by simp [hr0tot]⟩
        obtain ⟨rf, hrf⟩ := Option.isSome_iff_exists.1 hfindSome
        rw [hrf]
        dsimp only
        constructor
        · constructor
          · intro hh
            exact Option.noConfusion hh
          · rintro (h1 | h2 | h3)
            · exact absurd h1 hemp2
            · exact Option.noConfusion h2
            · exact absurd (Option.some.inj h3) hm0
        · intro pb hpb
          cases hpb
          have hrfmem : rf ∈ completedRuns db route_id := List.mem_of_find?_eq_some hrf
          have hrftot : rf.total_time_seconds = some m := by
            have := List.find?_some hrf
            simpa using this
          refine ⟨hm0, rf, hrfmem, rfl, hrftot, rfl, ?_⟩
          intro q hq t hqt
          exact sqlMin_le hmin t (List.mem_map.2 ⟨q, hq, by rw [hqt]⟩)

/-- Witness for the amended C2 at `c2db2`: the personal best of route 1 is
run 2 with total 7, the minimum over both completed runs. -/
theorem C2_personal_best_witness :
    (7 : ℚ) ≠ 0 ∧
    ∃ r ∈ completedRuns c2db2 1,
      r.id = (PersonalBest.mk 2 7 1).run_id ∧
      r.total_time_seconds = some (PersonalBest.mk 2 7 1).time_seconds ∧
      r.start_time = (PersonalBest.mk 2 7 1).date ∧
      ∀ q ∈ completedRuns c2db2 1, ∀ t : ℚ,
        q.total_time_seconds = some t → (PersonalBest.mk 2 7 1).time_seconds ≤ t :=
  (C2_personal_best_amended c2db2 1).2 ⟨2, 7, 1⟩ (by decide)

/-! ### C5: timezone interpretation of stored timestamps -/

/-- C5: the claim fails on the code.  Every timestamp the sqlite layer stores
comes from naive `datetime.now()` and is serialized without a timezone
marker; `app.py`'s parse (`.replace("Z", "+00:00")` + `fromisoformat`) then
yields a timezone-naive value, not a UTC-aware one, and subtracting it from
the aware `datetime.now(timezone.utc)` raises `TypeError` (modelled `none`)
instead of producing the difference of absolute timestamps.  A marked
timestamp, by contrast, is handled as the claim says. -/
theorem C5_naive_timestamp_not_utc :
    (parseStored (storeNaiveNow 0 0)).tz = none ∧
    elapsedFromStored 5 (storeNaiveNow 0 0) = none ∧
    (parseStored ⟨0, true⟩).tz = some 0 ∧
    elapsedFromStored 5 ⟨0, true⟩ = some 5 := by
  refine ⟨rfl, rfl, rfl, ?_⟩
  simp only [elapsedFromStored, parseStored, pySub, utcnowDt, if_pos rfl]
  norm_num

/-! ### C7: starting a run on a route with no checkpoints -/

/-- C7: when the selected route has no checkpoints, the Start Run handler
reports the validation error and persists nothing: the database (in
particular the `runs` table) and the session are returned unchanged, the
failure occurring before any write is attempted. -/
theorem C7_start_run_no_checkpoints (db : DB) (s : SessionState) (route_id : Nat)
    (notes : String) (now : ℚ) (h : get_checkpoints db route_id = []) :
    start_run_click db s route_id notes now
      = (db, s, some StartRunError.noCheckpoints) ∧
    (start_run_click db s route_id notes now).1.runs = db.runs := by
  constructor
  · simp [start_run_click, h]
  · simp [start_run_click, h]

/-- Witness for C7 at a concrete empty database. -/
theorem C7_start_run_no_checkpoints_witness :
    get_checkpoints ⟨[], [], [], [], 1, 1, 1, 1⟩ 1 = [] ∧
    start_run_click ⟨[], [], [], [], 1, 1, 1, 1⟩ clearedSession 1 "x" 0
      = (⟨[], [], [], [], 1, 1, 1, 1⟩, clearedSession, some StartRunError.noCheckpoints) :=
  ⟨rfl, (C7_start_run_no_checkpoints ⟨[], [], [], [], 1, 1, 1, 1⟩
    clearedSession 1 "x" 0 rfl).1⟩

/-! ### C8: cancelling a run touches only in-memory state -/

/-- C8: `cancel_run` is a total function (it can never raise) that returns
the database unchanged — every persisted checkpoint-time row survives and
every run keeps its `is_completed` flag, in particular an in-progress run
stays incomplete — and only resets the in-memory session. -/
theorem C8_cancel_run_frame (db : DB) (s : SessionState) :
    (cancel_run db s).1 = db ∧
    (cancel_run db s).1.checkpoint_times = db.checkpoint_times ∧
    (cancel_run db s).1.runs = db.runs ∧
    (cancel_run db s).2 = clearedSession ∧
    (cancel_run db s).2.active_run = none :=
  ⟨rfl, rfl, rfl, rfl, rfl⟩

/-! ### C9: deletes do not cascade -/

/-- C9: the claim fails on the code.  `delete_route` / `delete_run` issue a
single DELETE on the parent table, and because the sqlite connection never
enables foreign-key enforcement, the schema's `ON DELETE CASCADE` clauses do
nothing: after deleting route 1 its checkpoint and run rows remain, and after
deleting run 1 its checkpoint-time row remains — contradicting the methods'
own docstrings ("Delete a route and all associated data", "Delete a run and
all associated checkpoint times"). -/
theorem C9_delete_leaves_orphans :
    (delete_route c9db 1).routes = [] ∧
    (delete_route c9db 1).checkpoints.filter (fun c => c.route_id = 1) ≠ [] ∧
    (delete_route c9db 1).runs.filter (fun r => r.route_id = 1) ≠ [] ∧
    (delete_run c9db 1).runs = [] ∧
    (delete_run c9db 1).checkpoint_times.filter (fun ct => ct.run_id = 1) ≠ [] := by
  refine ⟨rfl, ?_, ?_, rfl, ?_⟩ <;> decide

/-! ### C6: comparison against the personal best -/

/-- C6: for an existing run, `get_pb_ghost_comparison` returns the empty
result (`none`, not an error) exactly when the run's route has no personal
best or the run is itself the personal-best run; in every other case it
returns exactly `get_ghost_comparison run_id pb.run_id`. -/
theorem C6_pb_comparison (db : DB) (run_id : Nat) (r : Run)
    (h : db.runs.find? (fun x => x.id = run_id) = some r) :
    (get_pb_ghost_comparison db run_id = none ↔
      get_personal_best db r.route_id = none ∨
        ∃ pb, get_personal_best db r.route_id = some pb ∧ pb.run_id = run_id) ∧
    ∀ pb, get_personal_best db r.route_id = some pb → ¬ pb.run_id = run_id →
      get_pb_ghost_comparison db run_id
        = some (get_ghost_comparison db run_id pb.run_id) := by
  unfold get_pb_ghost_comparison
  rw [h]
  dsimp only
  cases hpb : get_personal_best db r.route_id with
  | none =>
    dsimp only
    refine ⟨⟨fun _ => Or.inl rfl, fun _ => rfl⟩, ?_⟩
    intro pb hpb2
    exact Option.noConfusion hpb2
  | some pb =>
    dsimp only
    by_cases hid : pb.run_id = run_id
    · rw [if_pos hid]
      refine ⟨⟨fun _ => Or.inr ⟨pb, rfl, hid⟩, fun _ => rfl⟩, ?_⟩
      intro pb2 hpb2 hne
      cases hpb2
      exact absurd hid hne
    · rw [if_neg hid]
      constructor
      · constructor
        · intro hh
          exact Option.noConfusion hh
        · rintro (h1 | ⟨pb2, hpb2, hpb2id⟩)
          · exact Option.noConfusion h1
          · cases hpb2
            exact absurd hpb2id hid
      · intro pb2 hpb2 _
        cases hpb2
        rfl

/-- Witness for C6: in `c6db` run 1 exists but its route has no completed
run, hence no personal best, and the comparison is the empty result. -/
theorem C6_pb_comparison_witness : get_pb_ghost_comparison c6db 1 = none :=
  ((C6_pb_comparison c6db 1 ⟨1, 1, 0, none, none, "", false⟩ (by decide)).1).mpr
    (Or.inl (by decide))

/-! ### C10: rows of the checkpoint analysis -/

theorem analysisRowFor_some_id (db : DB) (c : Checkpoint) (row : AnalysisRow)
    (h : analysisRowFor db c = some row) : row.checkpoint_id = c.id := by
  unfold analysisRowFor at h
  cases hsegs : (db.checkpoint_times.filter
      (fun ct => ct.checkpoint_id = c.id ∧ isCompletedRunCT db ct = true)).map
    (fun ct => ct.segment_time_seconds) with
  | nil =>
    rw [hsegs] at h
    exact Option.noConfusion h
  | cons x xs =>
    rw [hsegs] at h
    cases h
    rfl

theorem analysisRowFor_isSome_iff (db : DB) (c : Checkpoint) :
    (analysisRowFor db c).isSome ↔
      db.checkpoint_times.filter
        (fun ct => ct.checkpoint_id = c.id ∧ isCompletedRunCT db ct = true) ≠ [] := by
  unfold analysisRowFor
  cases hf : db.checkpoint_times.filter
      (fun ct => ct.checkpoint_id = c.id ∧ isCompletedRunCT db ct = true) with
  | nil => simp
  | cons a l => simp

/-- C10: the checkpoint analysis of a route contains a row keyed by
checkpoint id `cid` exactly when `cid` is a checkpoint of the route having
at least one checkpoint-time record that belongs to a completed run; a
checkpoint never reached in a completed run yields no row at all. -/
theorem C10_analysis_presence (db : DB) (route_id cid : Nat) :
    (∃ row ∈ get_checkpoint_analysis db route_id, row.checkpoint_id = cid) ↔
      ∃ c ∈ db.checkpoints, c.id = cid ∧ c.route_id = route_id ∧
        ∃ ct ∈ db.checkpoint_times, ct.checkpoint_id = c.id ∧
          ∃ r ∈ db.runs, r.id = ct.run_id ∧ r.is_completed = true := by
  unfold get_checkpoint_analysis
  constructor
  · rintro ⟨row, hrow, hid⟩
    obtain ⟨c, hcmem, hsome⟩ := List.mem_filterMap.1 hrow
    have hcmem2 : c ∈ db.checkpoints.filter (fun c => c.route_id = route_id) :=
      (List.mem_insertionSort cpLE).1 hcmem
    have hcprops := List.mem_filter.1 hcmem2
    have hcid : c.id = cid := by
      rw [← analysisRowFor_some_id db c row hsome, hid]
    have hne : db.checkpoint_times.filter
        (fun ct => ct.checkpoint_id = c.id ∧ isCompletedRunCT db ct = true) ≠ [] :=
      (analysisRowFor_isSome_iff db c).1 (by rw [hsome]; rfl)
    obtain ⟨ct, hctmem⟩ := List.exists_mem_of_ne_nil _ hne
    have hctprops := List.mem_filter.1 hctmem
    have hct2 : ct.checkpoint_id = c.id ∧ isCompletedRunCT db ct = true := by
      simpa using hctprops.2
    obtain ⟨rr, hrrmem, hrr⟩ := List.any_eq_true.1 hct2.2
    have hrr2 : rr.id = ct.run_id ∧ rr.is_completed = true := by simpa using hrr
    exact ⟨c, hcprops.1, hcid, by simpa using hcprops.2,
      ct, hctprops.1, hct2.1, rr, hrrmem, hrr2.1, hrr2.2⟩
  · rintro ⟨c, hcmem, hcid, hcr, ct, hctmem, hctc, rr, hrrmem, hrrid, hrrc⟩
    have hctfil : ct ∈ db.checkpoint_times.filter
        (fun ct => ct.checkpoint_id = c.id ∧ isCompletedRunCT db ct = true) := by
      rw [List.mem_filter]
      refine ⟨hctmem, ?_⟩
      have hcomp : isCompletedRunCT db ct = true :=
        List.any_eq_true.2 ⟨rr, hrrmem, by simp [hrrid, hrrc]⟩
      simp [hctc, hcomp]
    have hsome : (analysisRowFor db c).isSome :=
      (analysisRowFor_isSome_iff db c).2 (List.ne_nil_of_mem hctfil)
    obtain ⟨row, hrow⟩ := Option.isSome_iff_exists.1 hsome
    refine ⟨row, List.mem_filterMap.2 ⟨c, ?_, hrow⟩, ?_⟩
    · exact (List.mem_insertionSort cpLE).2
        (List.mem_filter.2 ⟨hcmem, by simp [hcr]⟩)
    · rw [analysisRowFor_some_id db c row hrow, hcid]

/-- Witness for C10 at `c3db`: checkpoint 1 appears in the analysis of
route 1 because run 1 is completed and reached it. -/
theorem C10_analysis_presence_witness :
    ∃ row ∈ get_checkpoint_analysis c3db 1, row.checkpoint_id = 1 :=
  (C10_analysis_presence c3db 1 1).mpr
    ⟨⟨1, 1, "alpha", 1⟩, by decide, rfl, rfl,
      ⟨1, 1, 1, 10, 10⟩, by decide, rfl,
      ⟨1, 1, 0, some 30, some 30, "", true⟩, by decide, rfl, rfl⟩

/-! ### C4: reattaching to the latest incomplete run -/

theorem length_withCumulative :
    ∀ (acc : ℚ) (l : List (Checkpoint × CheckpointTime)),
      (withCumulative acc l).length = l.length := by
  intro acc l
  induction l generalizing acc with
  | nil => rfl
  | cons p rest ih =>
    cases p
    simp [withCumulative, ih]

/-- C4: when no in-memory run is tracked and storage holds an incomplete
run, the Active Run page reattaches to the latest such run, with the
progress cursor equal to the number of CheckpointTime rows recorded for
that run (assuming, as referential integrity gives, that each such row
references an existing checkpoint: `get_run_checkpoint_times` joins the
`checkpoints` table). -/
theorem C4_reattach (db : DB) (s : SessionState) (latest : Run)
    (h1 : s.active_run = none)
    (h2 : get_latest_active_run db = some latest)
    (h3 : ∀ ct ∈ db.checkpoint_times, ct.run_id = latest.id →
      ∃ c ∈ db.checkpoints, c.id = ct.checkpoint_id) :
    latest.is_completed = false ∧
    (reattach db s).active_run = some latest.id ∧
    (reattach db s).current_checkpoint_index
      = (db.checkpoint_times.filter (fun ct => ct.run_id = latest.id)).length ∧
    (reattach db s).checkpoints_data = get_checkpoints db latest.route_id ∧
    (reattach db s).ghost_data = get_live_ghost_data db latest.route_id := by
  have hmemf : latest ∈ db.runs.filter (fun r => r.is_completed = false) :=
    mem_of_getLast?_eq _ _ h2
  have hincomp : latest.is_completed = false := by
    have := (List.mem_filter.1 hmemf).2
    simpa using this
  have hre : reattach db s =
      ⟨some latest.id, (get_run_checkpoint_times db latest.id).length,
        get_checkpoints db latest.route_id, get_live_ghost_data db latest.route_id⟩ := by
    unfold reattach
    rw [h1, h2]
  have hlen : (get_run_checkpoint_times db latest.id).length
      = (db.checkpoint_times.filter (fun ct => ct.run_id = latest.id)).length := by
    unfold get_run_checkpoint_times
    rw [length_withCumulative, List.length_insertionSort]
    apply length_filterMap_of_isSome
    intro ct hct
    have hctprops := List.mem_filter.1 hct
    have hctrun : ct.run_id = latest.id := by simpa using hctprops.2
    obtain ⟨c, hcmem, hcid⟩ := h3 ct hctprops.1 hctrun
    unfold joinCheckpoint
    have hfs : (db.checkpoints.find? (fun cp => cp.id = ct.checkpoint_id)).isSome := by
      rw [List.find?_isSome]
      exact ⟨c, hcmem, by simp [hcid]⟩
    obtain ⟨cc, hcc⟩ := Option.isSome_iff_exists.1 hfs
    rw [hcc]
    rfl
  rw [hre]
  exact ⟨hincomp, rfl, hlen, rfl, rfl⟩

/-! ### C3: positional ghost comparison -/

theorem zip_getElem?_eq_some {α β : Type _} :
    ∀ (l1 : List α) (l2 : List β) (i : Nat) (a : α) (b : β),
      l1[i]? = some a → l2[i]? = some b → (l1.zip l2)[i]? = some (a, b) := by
  intro l1
  induction l1 with
  | nil =>
    intro l2 i a b h1 _
    simp at h1
  | cons x xs ih =>
    intro l2 i a b h1 h2
    cases l2 with
    | nil => simp at h2
    | cons y ys =>
      cases i with
      | zero =>
        simp only [List.getElem?_cons_zero, Option.some.injEq] at h1 h2
        simp [List.zip_cons_cons, h1, h2]
      | succ n =>
        simp only [List.getElem?_cons_succ] at h1 h2
        simp only [List.zip_cons_cons, List.getElem?_cons_succ]
        exact ih ys n a b h1 h2

theorem withCumulative_cumulative :
    ∀ (l : List (Checkpoint × CheckpointTime)) (acc : ℚ) (i : Nat) (row : CTRow),
      (withCumulative acc l)[i]? = some row →
      row.cumulative_time
        = acc + (((withCumulative acc l).take (i + 1)).map
            (fun x => x.segment_time)).sum := by
  intro l
  induction l with
  | nil =>
    intro acc i row h
    simp [withCumulative] at h
  | cons p rest ih =>
    intro acc i row h
    obtain ⟨c, ct⟩ := p
    cases i with
    | zero =>
      simp only [withCumulative, List.getElem?_cons_zero, Option.some.injEq] at h
      subst h
      simp [withCumulative]
    | succ n =>
      simp only [withCumulative, List.getElem?_cons_succ] at h
      have hrec := ih (acc + ct.segment_time_seconds) n row h
      simp only [withCumulative, List.take_succ_cons, List.map_cons, List.sum_cons]
      rw [hrec]
      ring

theorem map_sequence_withCumulative :
    ∀ (acc : ℚ) (l : List (Checkpoint × CheckpointTime)),
      (withCumulative acc l).map (fun row => row.sequence_order)
        = l.map (fun p => p.1.sequence_order) := by
  intro acc l
  induction l generalizing acc with
  | nil => rfl
  | cons p rest ih =>
    obtain ⟨c, ct⟩ := p
    simp [withCumulative, ih]

instance : IsTotal (Checkpoint × CheckpointTime) pairLE :=
  ⟨fun a b => le_total a.1.sequence_order b.1.sequence_order⟩

instance : IsTrans (Checkpoint × CheckpointTime) pairLE :=
  ⟨fun _ _ _ hab hbc => le_trans hab hbc⟩

theorem get_run_checkpoint_times_sorted (db : DB) (run_id : Nat) :
    List.Pairwise (fun u v : CTRow => u.sequence_order ≤ v.sequence_order)
      (get_run_checkpoint_times db run_id) := by
  unfold get_run_checkpoint_times
  have hs := List.sorted_insertionSort pairLE
    ((db.checkpoint_times.filter (fun ct => ct.run_id = run_id)).filterMap
      (joinCheckpoint db))
  have hmap : List.Pairwise (fun u v : Int => u ≤ v)
      ((withCumulative 0 (List.insertionSort pairLE
        ((db.checkpoint_times.filter (fun ct => ct.run_id = run_id)).filterMap
          (joinCheckpoint db)))).map (fun row => row.sequence_order)) := by
    rw [map_sequence_withCumulative]
    exact List.pairwise_map.2 hs
  exact List.pairwise_map.1 hmap

/-- C3: `get_ghost_comparison` pairs the two ordered checkpoint-time
sequences positionally and truncates to the shorter length; each paired
position carries `segment_delta = current − ghost` and `cumulative_delta =
current cumulative − ghost cumulative`, where the cumulative value at a
position is the sum of the segment durations up to and including it, the
sequence being ordered by the route's checkpoint sequence positions. -/
theorem C3_ghost_comparison (db : DB) (a b : Nat) :
    (get_ghost_comparison db a b).length
      = min (get_run_checkpoint_times db a).length
          (get_run_checkpoint_times db b).length ∧
    (∀ (i : Nat) (c g : CTRow),
      (get_run_checkpoint_times db a)[i]? = some c →
      (get_run_checkpoint_times db b)[i]? = some g →
      (get_ghost_comparison db a b)[i]?
        = some ⟨c.name, c.sequence_order, c.segment_time, g.segment_time,
            c.segment_time - g.segment_time, c.cumulative_time, g.cumulative_time,
            c.cumulative_time - g.cumulative_time⟩) ∧
    (∀ (i : Nat) (x : CTRow),
      (get_run_checkpoint_times db a)[i]? = some x →
      x.cumulative_time
        = (((get_run_checkpoint_times db a).take (i + 1)).map
            (fun row => row.segment_time)).sum) ∧
    List.Pairwise (fun u v : CTRow => u.sequence_order ≤ v.sequence_order)
      (get_run_checkpoint_times db a) := by
  refine ⟨?_, ?_, ?_, get_run_checkpoint_times_sorted db a⟩
  · unfold get_ghost_comparison
    rw [List.length_map, List.length_zip]
  · intro i c g h1 h2
    unfold get_ghost_comparison
    rw [List.getElem?_map, zip_getElem?_eq_some _ _ i c g h1 h2]
    rfl
  · intro i x h
    unfold get_run_checkpoint_times at h ⊢
    have := withCumulative_cumulative _ 0 i x h
    rw [this, zero_add]

/-- Witness for C3 at `c3db`, position 0 of the comparison of runs 1 and 2. -/
theorem C3_ghost_comparison_witness :
    (get_ghost_comparison c3db 1 2)[0]?
      = some ⟨"alpha", 1, 10, 12, 10 - 12, 0 + 10, 0 + 12, (0 + 10) - (0 + 12)⟩ :=
  (C3_ghost_comparison c3db 1 2).2.1 0 ⟨1, "alpha", 1, 10, 0 + 10, 10⟩
    ⟨1, "alpha", 1, 12, 0 + 12, 12⟩
    (by simp [c3db, get_run_checkpoint_times, joinCheckpoint, withCumulative,
      List.insertionSort, List.orderedInsert, pairLE])
    (by simp [c3db, get_run_checkpoint_times, joinCheckpoint, withCumulative,
      List.insertionSort, List.orderedInsert, pairLE])

/-- Witness for C4 at `c4db`: the session reattaches to run 1 with the
cursor at 1, the count of its recorded checkpoint times. -/
theorem C4_reattach_witness :
    (⟨1, 1, 0, none, none, "", false⟩ : Run).is_completed = false ∧
    (reattach c4db clearedSession).active_run = some 1 ∧
    (reattach c4db clearedSession).current_checkpoint_index
      = (c4db.checkpoint_times.filter (fun ct => ct.run_id = 1)).length ∧
    (reattach c4db clearedSession).checkpoints_data = get_checkpoints c4db 1 ∧
    (reattach c4db clearedSession).ghost_data = get_live_ghost_data c4db 1 :=
  C4_reattach c4db clearedSession ⟨1, 1, 0, none, none, "", false⟩ rfl (by decide)
    (by decide)

/-! ### C1: completed total versus the sum of segment durations -/

/-- C1: the claim is unreachable on the code because of the timezone code
bug.  Every invocation of `record_checkpoint` computes its segment as
`datetime.now(timezone.utc)` minus the naive parse of a stored timestamp
that carries no timezone marker (all stored timestamps come from naive
`datetime.now()`), so the subtraction at app.py line 73 raises `TypeError`
on the very first press: no checkpoint time is ever recorded and no run is
ever completed through the controller, and the claimed identity
`total_duration = sum of segment durations` — the telescoping the spec
intends — never gets to hold of any controller-completed run.  The first
conjunct proves the handler fails on every database, session and wall time;
the second evaluates the failing input: a full attempted run-through of the
freshly started run in `c1db` with presses at times 3 and 7 aborts at the
first press. -/
theorem C1_record_checkpoint_always_raises :
    (∀ (db : DB) (s : SessionState) (t : ℚ), record_checkpoint db s t = none) ∧
    runLoop c1db ⟨some 1, 0, [⟨1, 1, "alpha", 1⟩, ⟨2, 1, "beta", 2⟩], none⟩ [3, 7]
      = none := by
  have hall : ∀ (db : DB) (s : SessionState) (t : ℚ),
      record_checkpoint db s t = none := by
    intro db s t
    obtain ⟨ar, idx, cpd, gdd⟩ := s
    unfold record_checkpoint
    cases ar with
    | none => rfl
    | some run_id =>
      dsimp only
      cases hrd : get_run_details db run_id with
      | none => rfl
      | some rd =>
        dsimp only
        by_cases h0 : idx = 0
        · rw [if_pos h0]
          rfl
        · rw [if_neg h0]
          cases hl : (get_run_checkpoint_times db run_id).getLast? with
          | none => rfl
          | some row => rfl
  refine ⟨hall, ?_⟩
  rw [runLoop, hall c1db ⟨some 1, 0, [⟨1, 1, "alpha", 1⟩, ⟨2, 1, "beta", 2⟩], none⟩ 3]

end TimeAttack
